import Mathlib

/-!
Shallow embedding of `src/integration.rs` from `egui_winit_vulkano`: the `Gui`
integration session bridging an immediate-mode UI context (egui) to a Vulkan
renderer. The `Gui` struct and all of its methods are translated from the
source file. External collaborators (the egui context, the winit input bridge,
the renderer backend and the vulkano handle types) are modelled as concrete
executable capabilities following the shape of their use sites in the source;
repository code not present under `src/` (`renderer.rs`, `utils.rs`) is
modelled from the spec, as marked on each definition. Rust panics
(`panic!`, `assert!`, `.expect`) are embedded as `Except.error` carrying the
panic message, paired with the session state at the moment of the abort.
-/

deriving instance DecidableEq for Except

namespace EguiVulkano

/-- Pixel formats: the subset of `vulkano::format::Format` relevant here. -/
inductive Format where
  | B8G8R8A8_SRGB
  | B8G8R8A8_UNORM
  | R8G8B8A8_UNORM
  | R8G8B8A8_SRGB
  deriving DecidableEq, Repr

/-- The Rust `Debug` rendering of a `Format`, as used by `{:?}` in panic
messages. -/
def formatDebug : Format → String
  | .B8G8R8A8_SRGB => "B8G8R8A8_SRGB"
  | .B8G8R8A8_UNORM => "B8G8R8A8_UNORM"
  | .R8G8B8A8_UNORM => "R8G8B8A8_UNORM"
  | .R8G8B8A8_SRGB => "R8G8B8A8_SRGB"

/-- The Rust `Debug` rendering of an `Option<Format>`. -/
def optionFormatDebug : Option Format → String
  | none => "None"
  | some f => "Some(" ++ formatDebug f ++ ")"

/-- Color spaces paired with formats in `surface_formats` results. -/
inductive ColorSpace where
  | SrgbNonLinear
  | ExtendedSrgbLinear
  deriving DecidableEq, Repr

/-- A winit window handle (opaque). -/
structure Window where
  id : Nat
  deriving DecidableEq, Repr

/-- A vulkano surface: carries the winit window and the list of
(format, colorspace) pairs the platform reports as supported for it
(the result of the `surface_formats` query is modelled as a property of the
surface). -/
structure Surface where
  window : Window
  supported_formats : List (Format × ColorSpace)
  deriving DecidableEq, Repr

/-- The physical-device properties read by the integration. The source reads
`max_image_array_layers`; `max_image_dimension2_d` is the Vulkan limit that
bounds the side length of a 2D texture. -/
structure PhysicalDeviceProperties where
  max_image_array_layers : Nat
  max_image_dimension2_d : Nat
  deriving DecidableEq, Repr

/-- A vulkano physical device. -/
structure PhysicalDevice where
  properties : PhysicalDeviceProperties
  deriving DecidableEq, Repr

/-- `PhysicalDevice::surface_formats(&surface, Default::default()).unwrap()`:
returns the supported (format, colorspace) pairs for the surface. -/
def PhysicalDevice.surface_formats (_d : PhysicalDevice) (s : Surface) :
    List (Format × ColorSpace) :=
  s.supported_formats

/-- A vulkano logical device. -/
structure Device where
  physical_device : PhysicalDevice
  deriving DecidableEq, Repr

/-- A vulkano queue (`Arc<Queue>`). -/
structure Queue where
  device : Device
  deriving DecidableEq, Repr

/-- A vulkano image view (`Arc<dyn ImageViewAbstract>`): carries its pixel
format (`ImageViewAbstract::format` returns an `Option`) and an opaque
content token. -/
structure ImageView where
  format : Option Format
  content : Nat
  deriving DecidableEq, Repr

/-- A vulkano GPU future: modelled as the length of the chain of GPU work it
depends on. -/
structure GpuFuture where
  chain : Nat
  deriving DecidableEq, Repr

/-- A vulkano render subpass handle (opaque). -/
structure Subpass where
  index : Nat
  deriving DecidableEq, Repr

/-- An egui texture id, as returned by user-image registration. -/
structure TextureId where
  user_id : Nat
  deriving DecidableEq, Repr

/-- An egui clipped shape (opaque token): one element of the shape list the
UI context produces at frame end. -/
structure ClippedShape where
  tok : Nat
  deriving DecidableEq, Repr

/-- An egui clipped primitive: the tessellated counterpart of one shape. -/
structure ClippedPrimitive where
  shape : ClippedShape
  deriving DecidableEq, Repr

/-- `egui::TexturesDelta`: texture-atlas insertions/updates (`set`) and frees
(`free`) accumulated in one frame. `Default::default()` is the empty / no-op
delta, with both lists empty. -/
structure TexturesDelta where
  set : List (Nat × Nat)
  free : List Nat
  deriving DecidableEq, Repr, Inhabited

/-- `egui::PlatformOutput`: cursor icon and related requests the UI reports at
frame end for application to the platform window. -/
structure PlatformOutput where
  cursor_icon : Nat
  deriving DecidableEq, Repr, Inhabited

/-- `egui::RawInput`: the accumulated raw input handed to the context at frame
begin. -/
structure RawInput where
  events : List Nat
  deriving DecidableEq, Repr, Inhabited

/-- `egui::FullOutput`, as destructured by `Gui::end_frame`. -/
structure FullOutput where
  platform_output : PlatformOutput
  needs_repaint : Bool
  textures_delta : TexturesDelta
  shapes : List ClippedShape
  deriving DecidableEq, Repr, Inhabited

/-- The egui UI context capability (external crate), modelled per the spec:
it accepts raw input at frame begin and produces shapes, a texture delta and
platform output at frame end. `frameOpen` tracks whether a frame is open;
`frameOutput` is the output the context will report at the next frame end
(accumulated by layout code, which in this embedding may set it freely). -/
structure EguiContext where
  frameOpen : Bool
  frameInput : RawInput
  frameOutput : FullOutput
  deriving DecidableEq, Repr, Inhabited

/-- `egui::Context::begin_frame`: opens a frame with the given raw input. -/
def EguiContext.begin_frame (ctx : EguiContext) (raw_input : RawInput) : EguiContext :=
  { ctx with frameOpen := true, frameInput := raw_input }

/-- `egui::Context::end_frame`: closes the frame and reports the accumulated
full output. -/
def EguiContext.end_frame (ctx : EguiContext) : FullOutput × EguiContext :=
  (ctx.frameOutput, { ctx with frameOpen := false, frameOutput := default })

/-- Tessellation of a single shape (external capability, opaque). -/
def tessellateShape (s : ClippedShape) : ClippedPrimitive :=
  ⟨s⟩

/-- `egui::Context::tessellate`: turns the shape list into clipped
primitives. -/
def EguiContext.tessellate (_ctx : EguiContext) (shapes : List ClippedShape) :
    List ClippedPrimitive :=
  shapes.map tessellateShape

/-- A winit window event: an opaque payload plus whether egui consumes it
(the consumed flag is an abstract property of the event and UI state,
modelled as carried by the event). -/
structure WindowEvent where
  code : Nat
  egui_consumes : Bool
  deriving DecidableEq, Repr

/-- The `egui_winit::State` input bridge (external crate), modelled per the
spec: it accumulates platform input, hands it to the context at frame begin,
and applies platform output back to the window. -/
structure EguiWinitState where
  max_texture_side : Nat
  window : Window
  pending_input : RawInput
  scale_factor : Nat
  applied_output : Option PlatformOutput
  deriving DecidableEq, Repr

/-- `egui_winit::State::new(max_texture_side, window)`. -/
def EguiWinitState.new (max_texture_side : Nat) (w : Window) : EguiWinitState :=
  { max_texture_side := max_texture_side, window := w, pending_input := default,
    scale_factor := 1, applied_output := none }

/-- `egui_winit::State::take_egui_input`: drains the accumulated raw input. -/
def EguiWinitState.take_egui_input (st : EguiWinitState) (_w : Window) :
    RawInput × EguiWinitState :=
  (st.pending_input, { st with pending_input := default })

/-- `egui_winit::State::on_event`: records the event into the pending input
and reports whether egui wants exclusive use of it. -/
def EguiWinitState.on_event (st : EguiWinitState) (_ctx : EguiContext)
    (ev : WindowEvent) : Bool × EguiWinitState :=
  (ev.egui_consumes,
    { st with pending_input := ⟨st.pending_input.events ++ [ev.code]⟩ })

/-- `egui_winit::State::handle_platform_output`: applies the platform output
(cursor icon etc.) to the platform window. -/
def EguiWinitState.handle_platform_output (st : EguiWinitState) (_w : Window)
    (_ctx : EguiContext) (out : PlatformOutput) : EguiWinitState :=
  { st with applied_output := some out }

/-- `egui_winit::State::pixels_per_point`. -/
def EguiWinitState.pixels_per_point (st : EguiWinitState) : Nat :=
  st.scale_factor

/-- A recorded-but-unsubmitted secondary command buffer, as returned by the
subpass draw path. -/
structure SecondaryAutoCommandBuffer where
  dimensions : Nat × Nat
  primitive_count : Nat
  deriving DecidableEq, Repr

/-- Modelled from the spec: the GPU rendering backend (`renderer.rs` is not
under `src/`). The spec treats it as a capability that is constructed either
owning its own render pass or bound to a caller-supplied subpass, draws
primitives with a texture delta, and owns the user-image registry with
register/unregister operations. -/
structure Renderer where
  gfx_queue : Queue
  format : Format
  is_overlay : Bool
  has_renderpass_flag : Bool
  subpass : Option Subpass
  registered : List (TextureId × ImageView)
  next_user_id : Nat
  deriving DecidableEq, Repr

/-- Modelled from the spec: `Renderer::new_with_render_pass(gfx_queue, format,
is_overlay)` instantiates the backend owning its own render pass. -/
def Renderer.new_with_render_pass (gfx_queue : Queue) (format : Format)
    (is_overlay : Bool) : Renderer :=
  { gfx_queue := gfx_queue, format := format, is_overlay := is_overlay,
    has_renderpass_flag := true, subpass := none, registered := [],
    next_user_id := 0 }

/-- Modelled from the spec: `Renderer::new_with_subpass(gfx_queue, format,
subpass)` instantiates the backend bound to the caller-supplied subpass. -/
def Renderer.new_with_subpass (gfx_queue : Queue) (format : Format)
    (subpass : Subpass) : Renderer :=
  { gfx_queue := gfx_queue, format := format, is_overlay := false,
    has_renderpass_flag := false, subpass := some subpass, registered := [],
    next_user_id := 0 }

/-- Modelled from the spec: `Renderer::has_renderpass()` reports which mode
the backend was constructed in. -/
def Renderer.has_renderpass (r : Renderer) : Bool :=
  r.has_renderpass_flag

/-- Modelled from the spec: `Renderer::queue()`. -/
def Renderer.queue (r : Renderer) : Queue :=
  r.gfx_queue

/-- Modelled from the spec: `Renderer::register_image` assigns a fresh
UI-facing texture id to the image and records it in the registry. -/
def Renderer.register_image (r : Renderer) (image : ImageView) :
    TextureId × Renderer :=
  (⟨r.next_user_id⟩,
    { r with registered := r.registered ++ [(⟨r.next_user_id⟩, image)],
             next_user_id := r.next_user_id + 1 })

/-- Modelled from the spec: `Renderer::unregister_image` releases the
registry entry for the id. -/
def Renderer.unregister_image (r : Renderer) (texture_id : TextureId) : Renderer :=
  { r with registered := r.registered.filter (fun p => p.1 != texture_id) }

/-- Modelled from the spec: `Renderer::draw_on_image` schedules the UI draw
work after `before` and returns the new chained completion signal. -/
def Renderer.draw_on_image (r : Renderer) (_meshes : List ClippedPrimitive)
    (_delta : TexturesDelta) (_scale : Nat) (before : GpuFuture)
    (_img : ImageView) : GpuFuture × Renderer :=
  (⟨before.chain + 1⟩, r)

/-- Modelled from the spec: `Renderer::draw_on_subpass_image` records (but
does not submit) a command sequence sized to the given dimensions. -/
def Renderer.draw_on_subpass_image (r : Renderer)
    (meshes : List ClippedPrimitive) (_delta : TexturesDelta) (_scale : Nat)
    (dims : Nat × Nat) : SecondaryAutoCommandBuffer × Renderer :=
  (⟨dims, meshes.length⟩, r)

/-- Modelled from the spec: encoded image bytes (e.g. PNG) as handed to
`register_user_image`; whether the bytes decode and upload successfully is an
abstract property of the asset, carried as a field (the decoder in `utils.rs`
is not under `src/`). -/
structure EncodedImageBytes where
  bytes : List Nat
  decodes_ok : Bool
  deriving DecidableEq, Repr

/-- Modelled from the spec: raw pixel bytes as handed to
`register_user_image_from_bytes`; whether the GPU upload succeeds is an
abstract property carried as a field (`utils.rs` is not under `src/`). -/
structure RawImageBytes where
  bytes : List Nat
  upload_ok : Bool
  deriving DecidableEq, Repr

/-- Modelled from the spec: `utils::immutable_texture_from_file` decodes the
encoded bytes into a new GPU-resident image, failing when decoding or upload
fails. -/
def immutable_texture_from_file (_q : Queue) (data : EncodedImageBytes)
    (format : Format) : Except String ImageView :=
  if data.decodes_ok then .ok ⟨some format, data.bytes.length⟩
  else .error "image creation failed"

/-- Modelled from the spec: `utils::immutable_texture_from_bytes` uploads the
raw pixel bytes into a new GPU-resident image, failing when the upload
fails. -/
def immutable_texture_from_bytes (_q : Queue) (data : RawImageBytes)
    (_dims : Nat × Nat) (format : Format) : Except String ImageView :=
  if data.upload_ok then .ok ⟨some format, data.bytes.length⟩
  else .error "image creation failed"

/-- The panic message of the mode check in `Gui::draw_on_image`. -/
def drawOnImageWrongModeMsg : String :=
  "Gui integration has been created with subpass, use `draw_on_subpass_image` instead"

/-- The panic message of the mode check in `Gui::draw_on_subpass_image`. -/
def drawOnSubpassWrongModeMsg : String :=
  "Gui integration has been created with its own render pass, use `draw_on_image` instead"

/-- The panic message of the target-format check in `Gui::draw_on_image`,
with the `{:?}` placeholders filled by the Debug renderings of the actual and
required formats. -/
def wrongTargetFormatMsg (actual : Option Format) : String :=
  "Render target image color format is wrong " ++ optionFormatDebug actual ++
    ", should be " ++ optionFormatDebug (some Format.B8G8R8A8_SRGB)

/-- The assertion message of the surface-format check in both constructors,
with the `{:?}` placeholder filled by the Debug rendering of the required
format. -/
def swapchainFormatMsg (format : Format) : String :=
  "Swapchain format does not support " ++ formatDebug format

/-- The panic message of the `.expect` calls in `Gui::register_user_image`
and `Gui::register_user_image_from_bytes`. -/
def failedToCreateImageMsg : String :=
  "Failed to create image"

/-- The `Gui` integration session (`src/integration.rs`). `shapes` and
`textures_delta` are the pending per-frame buffers, both initially empty. -/
structure Gui where
  egui_ctx : EguiContext
  egui_winit : EguiWinitState
  renderer : Renderer
  surface : Surface
  shapes : List ClippedShape
  textures_delta : TexturesDelta
  deriving DecidableEq, Repr

/-- `Gui::new(surface, gfx_queue, is_overlay)`: validates that the surface
supports `B8G8R8A8_SRGB` (the `assert!` panic is embedded as `Except.error`),
queries `max_image_array_layers`, creates the renderer owning a render pass
and builds the session with empty pending buffers. -/
def Gui.new (surface : Surface) (gfx_queue : Queue) (is_overlay : Bool) :
    Except String Gui :=
  let format := Format.B8G8R8A8_SRGB
  let formats := gfx_queue.device.physical_device.surface_formats surface
  if ((formats.find? (fun f => f.1 == format)).isSome) then
    let max_texture_side :=
      gfx_queue.device.physical_device.properties.max_image_array_layers
    let renderer := Renderer.new_with_render_pass gfx_queue format is_overlay
    .ok { egui_ctx := default,
          egui_winit := EguiWinitState.new max_texture_side surface.window,
          renderer := renderer, surface := surface, shapes := [],
          textures_delta := default }
  else
    .error (swapchainFormatMsg format)

/-- `Gui::new_with_subpass(surface, gfx_queue, subpass)`: same format
validation and property query as `Gui::new`, but the renderer is bound to the
caller-supplied subpass. -/
def Gui.new_with_subpass (surface : Surface) (gfx_queue : Queue)
    (subpass : Subpass) : Except String Gui :=
  let format := Format.B8G8R8A8_SRGB
  let formats := gfx_queue.device.physical_device.surface_formats surface
  if ((formats.find? (fun f => f.1 == format)).isSome) then
    let max_texture_side :=
      gfx_queue.device.physical_device.properties.max_image_array_layers
    let renderer := Renderer.new_with_subpass gfx_queue format subpass
    .ok { egui_ctx := default,
          egui_winit := EguiWinitState.new max_texture_side surface.window,
          renderer := renderer, surface := surface, shapes := [],
          textures_delta := default }
  else
    .error (swapchainFormatMsg format)

/-- The external calls a constructor makes, in source order; used to state
that the format-check failure precedes renderer creation. -/
inductive ExtCall where
  | surfaceFormatsQuery
  | propertiesQuery
  | rendererCreate
  | inputBridgeCreate
  deriving DecidableEq, Repr

/-- The sequence of external calls `Gui::new` makes, in source order: the
`surface_formats` query always runs; the properties query, the renderer
construction and the input-bridge construction run only when the format
assertion passes (the `assert!` aborts otherwise). -/
def Gui.newTrace (surface : Surface) (gfx_queue : Queue) (_is_overlay : Bool) :
    List ExtCall :=
  let format := Format.B8G8R8A8_SRGB
  let formats := gfx_queue.device.physical_device.surface_formats surface
  if ((formats.find? (fun f => f.1 == format)).isSome) then
    [.surfaceFormatsQuery, .propertiesQuery, .rendererCreate, .inputBridgeCreate]
  else
    [.surfaceFormatsQuery]

/-- The sequence of external calls `Gui::new_with_subpass` makes, in source
order (identical structure to `Gui::new`). -/
def Gui.newWithSubpassTrace (surface : Surface) (gfx_queue : Queue)
    (_subpass : Subpass) : List ExtCall :=
  let format := Format.B8G8R8A8_SRGB
  let formats := gfx_queue.device.physical_device.surface_formats surface
  if ((formats.find? (fun f => f.1 == format)).isSome) then
    [.surfaceFormatsQuery, .propertiesQuery, .rendererCreate, .inputBridgeCreate]
  else
    [.surfaceFormatsQuery]

/-- `Gui::update(winit_event)`: forwards the event to the input bridge and
returns whether egui wants exclusive use of it. -/
def Gui.update (g : Gui) (winit_event : WindowEvent) : Bool × Gui :=
  let (consumed, st) := g.egui_winit.on_event g.egui_ctx winit_event
  (consumed, { g with egui_winit := st })

/-- `Gui::begin_frame()`: takes the accumulated egui input from the bridge
and opens a frame on the context. -/
def Gui.begin_frame (g : Gui) : Gui :=
  let (raw_input, st) := g.egui_winit.take_egui_input g.surface.window
  { g with egui_winit := st, egui_ctx := g.egui_ctx.begin_frame raw_input }

/-- `Gui::immediate_ui(layout_function)`: begins the frame and immediately
runs the caller-supplied layout closure with mutable access to the
session. -/
def Gui.immediate_ui (g : Gui) (layout_function : Gui → Gui) : Gui :=
  let (raw_input, st) := g.egui_winit.take_egui_input g.surface.window
  let g' := { g with egui_winit := st, egui_ctx := g.egui_ctx.begin_frame raw_input }
  layout_function g'

/-- `Gui::end_frame()` (private): ends the egui frame, forwards the platform
output to the input bridge, and stores the shape list and texture delta into
the pending buffers. -/
def Gui.end_frame (g : Gui) : Gui :=
  let (out, ctx) := g.egui_ctx.end_frame
  let st := g.egui_winit.handle_platform_output g.surface.window ctx
    out.platform_output
  { g with egui_ctx := ctx, egui_winit := st, shapes := out.shapes,
           textures_delta := out.textures_delta }

/-- `Gui::extract_draw_data_at_frame_end()` (private): ends the frame, drains
(`std::mem::take`) both pending buffers, tessellates the drained shape list
and returns the (primitives, delta) pair. -/
def Gui.extract_draw_data_at_frame_end (g : Gui) :
    (List ClippedPrimitive × TexturesDelta) × Gui :=
  let g1 := g.end_frame
  let shapes := g1.shapes
  let g2 := { g1 with shapes := [] }
  let textures_delta := g2.textures_delta
  let g3 := { g2 with textures_delta := default }
  let clipped_meshes := g3.egui_ctx.tessellate shapes
  ((clipped_meshes, textures_delta), g3)

/-- `Gui::draw_on_image(before_future, final_image)`: panics when the
renderer does not own a render pass, panics when the target image format is
not `B8G8R8A8_SRGB`, otherwise extracts the draw data at frame end and
delegates to the renderer, returning the chained completion future. -/
def Gui.draw_on_image (g : Gui) (before_future : GpuFuture)
    (final_image : ImageView) : Except String GpuFuture × Gui :=
  if !(g.renderer.has_renderpass) then
    (.error drawOnImageWrongModeMsg, g)
  else
    let format := final_image.format
    if format != some Format.B8G8R8A8_SRGB then
      (.error (wrongTargetFormatMsg format), g)
    else
      let (pair, g1) := g.extract_draw_data_at_frame_end
      let (fut, r) := g1.renderer.draw_on_image pair.1 pair.2
        g1.egui_winit.pixels_per_point before_future final_image
      (.ok fut, { g1 with renderer := r })

/-- `Gui::draw_on_subpass_image(image_dimensions)`: panics when the renderer
owns its own render pass, otherwise extracts the draw data at frame end and
asks the renderer to record a secondary command buffer. -/
def Gui.draw_on_subpass_image (g : Gui) (image_dimensions : Nat × Nat) :
    Except String SecondaryAutoCommandBuffer × Gui :=
  if g.renderer.has_renderpass then
    (.error drawOnSubpassWrongModeMsg, g)
  else
    let (pair, g1) := g.extract_draw_data_at_frame_end
    let (cb, r) := g1.renderer.draw_on_subpass_image pair.1 pair.2
      g1.egui_winit.pixels_per_point image_dimensions
    (.ok cb, { g1 with renderer := r })

/-- `Gui::register_user_image_view(image)`. -/
def Gui.register_user_image_view (g : Gui) (image : ImageView) :
    TextureId × Gui :=
  let (id, r) := g.renderer.register_image image
  (id, { g with renderer := r })

/-- `Gui::register_user_image(image_file_bytes, format)`: decodes and uploads
the encoded bytes; the `.expect("Failed to create image")` panic on failure
is embedded as `Except.error`. -/
def Gui.register_user_image (g : Gui) (image_file_bytes : EncodedImageBytes)
    (format : Format) : Except String TextureId × Gui :=
  match immutable_texture_from_file g.renderer.queue image_file_bytes format with
  | .error _ => (.error failedToCreateImageMsg, g)
  | .ok image =>
    let (id, r) := g.renderer.register_image image
    (.ok id, { g with renderer := r })

/-- `Gui::register_user_image_from_bytes(image_byte_data, dimensions,
format)`: uploads the raw pixel bytes; the `.expect("Failed to create
image")` panic on failure is embedded as `Except.error`. -/
def Gui.register_user_image_from_bytes (g : Gui) (image_byte_data : RawImageBytes)
    (dimensions : Nat × Nat) (format : Format) : Except String TextureId × Gui :=
  match immutable_texture_from_bytes g.renderer.queue image_byte_data dimensions
      format with
  | .error _ => (.error failedToCreateImageMsg, g)
  | .ok image =>
    let (id, r) := g.renderer.register_image image
    (.ok id, { g with renderer := r })

/-- `Gui::unregister_user_image(texture_id)`. -/
def Gui.unregister_user_image (g : Gui) (texture_id : TextureId) : Gui :=
  { g with renderer := g.renderer.unregister_image texture_id }

/-- `Gui::context()`: returns a clone of the egui context (value copy in this
embedding). -/
def Gui.context (g : Gui) : EguiContext :=
  g.egui_ctx

/-- Spec-worded definition, for comparison with what the constructors
actually pass to the input bridge: the platform-reported maximum texture
dimension of a physical device is the Vulkan `maxImageDimension2D` limit, the
bound on the side length of a 2D texture. -/
def maxTextureDimension (p : PhysicalDeviceProperties) : Nat :=
  p.max_image_dimension2_d

/-! Concrete fixtures used by witnesses and counterexamples. -/

/-- A concrete winit window. -/
def window0 : Window := ⟨0⟩

/-- A concrete surface that supports the required `B8G8R8A8_SRGB` format. -/
def surface0 : Surface := ⟨window0, [(.B8G8R8A8_SRGB, .SrgbNonLinear)]⟩

/-- A concrete surface that does not support `B8G8R8A8_SRGB`. -/
def surfaceBad : Surface := ⟨window0, [(.B8G8R8A8_UNORM, .SrgbNonLinear)]⟩

/-- Concrete physical-device properties on which the maximum image array
layer count (2048) differs from the maximum 2D texture dimension (16384). -/
def props0 : PhysicalDeviceProperties := ⟨2048, 16384⟩

/-- A concrete queue on a device with properties `props0`. -/
def queue0 : Queue := ⟨⟨⟨props0⟩⟩⟩

/-- A concrete subpass handle. -/
def subpass0 : Subpass := ⟨0⟩

/-- A target image with the required format. -/
def imgGood : ImageView := ⟨some .B8G8R8A8_SRGB, 0⟩

/-- A target image with a wrong format. -/
def imgBad : ImageView := ⟨some .R8G8B8A8_UNORM, 1⟩

/-- A concrete upstream GPU future. -/
def fut0 : GpuFuture := ⟨0⟩

/-- The session `Gui::new(surface0, queue0, false)` constructs. -/
def guiRP : Gui :=
  { egui_ctx := default, egui_winit := EguiWinitState.new 2048 window0,
    renderer := Renderer.new_with_render_pass queue0 .B8G8R8A8_SRGB false,
    surface := surface0, shapes := [], textures_delta := default }

/-- The session `Gui::new_with_subpass(surface0, queue0, subpass0)`
constructs. -/
def guiSP : Gui :=
  { egui_ctx := default, egui_winit := EguiWinitState.new 2048 window0,
    renderer := Renderer.new_with_subpass queue0 .B8G8R8A8_SRGB subpass0,
    surface := surface0, shapes := [], textures_delta := default }

/-! Helper lemmas shared by the claim theorems. -/

/-- Unfolding lemma: what `extract_draw_data_at_frame_end` returns and leaves
behind, in terms of `end_frame`. -/
theorem Gui.extract_eq (g : Gui) :
    g.extract_draw_data_at_frame_end =
      (((g.end_frame).egui_ctx.tessellate (g.end_frame).shapes,
        (g.end_frame).textures_delta),
       { g.end_frame with shapes := [], textures_delta := default }) := rfl

/-- A session `Gui::new` returns is exactly the record the source builds. -/
theorem Gui.new_ok_elim (s : Surface) (q : Queue) (o : Bool) (g : Gui)
    (h : Gui.new s q o = .ok g) :
    g = { egui_ctx := default,
          egui_winit := EguiWinitState.new
            q.device.physical_device.properties.max_image_array_layers s.window,
          renderer := Renderer.new_with_render_pass q .B8G8R8A8_SRGB o,
          surface := s, shapes := [], textures_delta := default } := by
  simp only [Gui.new] at h
  split at h
  · exact (Except.ok.inj h).symm
  · exact Except.noConfusion h

/-- A session `Gui::new_with_subpass` returns is exactly the record the
source builds. -/
theorem Gui.new_with_subpass_ok_elim (s : Surface) (q : Queue) (sp : Subpass)
    (g : Gui) (h : Gui.new_with_subpass s q sp = .ok g) :
    g = { egui_ctx := default,
          egui_winit := EguiWinitState.new
            q.device.physical_device.properties.max_image_array_layers s.window,
          renderer := Renderer.new_with_subpass q .B8G8R8A8_SRGB sp,
          surface := s, shapes := [], textures_delta := default } := by
  simp only [Gui.new_with_subpass] at h
  split at h
  · exact (Except.ok.inj h).symm
  · exact Except.noConfusion h

/-- `draw_on_image` on a subpass-mode session: the mode-check panic, with the
session unchanged. -/
theorem Gui.draw_on_image_mode_err (g : Gui) (fut : GpuFuture) (img : ImageView)
    (h : g.renderer.has_renderpass = false) :
    g.draw_on_image fut img = (.error drawOnImageWrongModeMsg, g) := by
  simp [Gui.draw_on_image, h]

/-- `draw_on_subpass_image` on a render-pass-mode session: the mode-check
panic, with the session unchanged. -/
theorem Gui.draw_on_subpass_image_mode_err (g : Gui) (dims : Nat × Nat)
    (h : g.renderer.has_renderpass = true) :
    g.draw_on_subpass_image dims = (.error drawOnSubpassWrongModeMsg, g) := by
  simp [Gui.draw_on_subpass_image, h]

/-- `draw_on_image` in render-pass mode with a wrong-format target: the
format-check panic, with the session unchanged. -/
theorem Gui.draw_on_image_format_err (g : Gui) (fut : GpuFuture)
    (img : ImageView) (hm : g.renderer.has_renderpass = true)
    (hf : img.format ≠ some Format.B8G8R8A8_SRGB) :
    g.draw_on_image fut img = (.error (wrongTargetFormatMsg img.format), g) := by
  simp [Gui.draw_on_image, hm, hf]

/-- `draw_on_image` in render-pass mode with a matching target format:
extracts the draw data and delegates to the renderer. -/
theorem Gui.draw_on_image_ok_eq (g : Gui) (fut : GpuFuture) (img : ImageView)
    (hm : g.renderer.has_renderpass = true)
    (hf : img.format = some Format.B8G8R8A8_SRGB) :
    g.draw_on_image fut img =
      (.ok ⟨fut.chain + 1⟩, g.extract_draw_data_at_frame_end.2) := by
  simp [Gui.draw_on_image, hm, hf, Renderer.draw_on_image]

/-- `draw_on_subpass_image` in subpass mode: extracts the draw data and
records the command buffer. -/
theorem Gui.draw_on_subpass_image_ok_eq (g : Gui) (dims : Nat × Nat)
    (h : g.renderer.has_renderpass = false) :
    g.draw_on_subpass_image dims =
      (.ok ⟨dims, (g.extract_draw_data_at_frame_end.1.1).length⟩,
       g.extract_draw_data_at_frame_end.2) := by
  simp [Gui.draw_on_subpass_image, h, Renderer.draw_on_subpass_image]

/-! Claim theorems. -/

/-- C1: `extract_draw_data_at_frame_end` drains the pending buffers: after it
returns, the pending shape buffer is empty and the pending texture-delta
buffer is the empty/no-op delta, and the returned pair is exactly the
tessellation of the shape list buffered by the end-frame step together with
the buffered texture delta; hence after either draw entry point returns
successfully, the pending buffers of the resulting session are empty. -/
theorem extract_draw_data_drains_pending_buffers
    (g g1 g2 : Gui) (fut f' : GpuFuture) (img : ImageView) (dims : Nat × Nat)
    (cb : SecondaryAutoCommandBuffer)
    (h1 : (g1.draw_on_image fut img).1 = .ok f')
    (h2 : (g2.draw_on_subpass_image dims).1 = .ok cb) :
    ((g.extract_draw_data_at_frame_end).2.shapes = [] ∧
      (g.extract_draw_data_at_frame_end).2.textures_delta = ⟨[], []⟩ ∧
      (g.extract_draw_data_at_frame_end).1 =
        ((g.end_frame).egui_ctx.tessellate (g.end_frame).shapes,
         (g.end_frame).textures_delta)) ∧
    ((g1.draw_on_image fut img).2.shapes = [] ∧
      (g1.draw_on_image fut img).2.textures_delta = ⟨[], []⟩) ∧
    ((g2.draw_on_subpass_image dims).2.shapes = [] ∧
      (g2.draw_on_subpass_image dims).2.textures_delta = ⟨[], []⟩) := by
  refine ⟨⟨rfl, rfl, rfl⟩, ?_, ?_⟩
  · by_cases hm : g1.renderer.has_renderpass = true
    · by_cases hf : img.format = some Format.B8G8R8A8_SRGB
      · rw [Gui.draw_on_image_ok_eq g1 fut img hm hf]
        exact ⟨rfl, rfl⟩
      · rw [Gui.draw_on_image_format_err g1 fut img hm hf] at h1
        exact Except.noConfusion h1
    · rw [Bool.not_eq_true] at hm
      rw [Gui.draw_on_image_mode_err g1 fut img hm] at h1
      exact Except.noConfusion h1
  · by_cases hm : g2.renderer.has_renderpass = true
    · rw [Gui.draw_on_subpass_image_mode_err g2 dims hm] at h2
      exact Except.noConfusion h2
    · rw [Bool.not_eq_true] at hm
      rw [Gui.draw_on_subpass_image_ok_eq g2 dims hm]
      exact ⟨rfl, rfl⟩

/-- Witness for C1 at concrete sessions: an arbitrary subpass session for the
drain facts, a render-pass session whose draw succeeds, and a subpass session
whose draw succeeds. -/
theorem extract_draw_data_drains_pending_buffers_witness :
    ((guiSP.extract_draw_data_at_frame_end).2.shapes = [] ∧
      (guiSP.extract_draw_data_at_frame_end).2.textures_delta = ⟨[], []⟩ ∧
      (guiSP.extract_draw_data_at_frame_end).1 =
        ((guiSP.end_frame).egui_ctx.tessellate (guiSP.end_frame).shapes,
         (guiSP.end_frame).textures_delta)) ∧
    ((guiRP.draw_on_image fut0 imgGood).2.shapes = [] ∧
      (guiRP.draw_on_image fut0 imgGood).2.textures_delta = ⟨[], []⟩) ∧
    ((guiSP.draw_on_subpass_image (2, 2)).2.shapes = [] ∧
      (guiSP.draw_on_subpass_image (2, 2)).2.textures_delta = ⟨[], []⟩) :=
  extract_draw_data_drains_pending_buffers guiSP guiRP guiSP fut0 ⟨1⟩ imgGood
    (2, 2) ⟨(2, 2), 0⟩ (by decide) (by decide)

/-- C2: a session constructed via `Gui::new` (render-pass path) fails fatally
from `draw_on_subpass_image`, with a message naming `draw_on_image` as the
correct entry point; a session constructed via `Gui::new_with_subpass` fails
fatally from `draw_on_image`, with a message naming `draw_on_subpass_image`
as the correct entry point. -/
theorem draw_mode_exclusivity
    (s s' : Surface) (q q' : Queue) (o : Bool) (sp : Subpass) (g1 g2 : Gui)
    (fut : GpuFuture) (img : ImageView) (dims : Nat × Nat)
    (h1 : Gui.new s q o = .ok g1)
    (h2 : Gui.new_with_subpass s' q' sp = .ok g2) :
    (g1.draw_on_subpass_image dims = (.error drawOnSubpassWrongModeMsg, g1) ∧
      ∃ a b, drawOnSubpassWrongModeMsg = a ++ "draw_on_image" ++ b) ∧
    (g2.draw_on_image fut img = (.error drawOnImageWrongModeMsg, g2) ∧
      ∃ a b, drawOnImageWrongModeMsg = a ++ "draw_on_subpass_image" ++ b) := by
  constructor
  · constructor
    · apply Gui.draw_on_subpass_image_mode_err
      rw [Gui.new_ok_elim s q o g1 h1]
      rfl
    · exact ⟨"Gui integration has been created with its own render pass, use `",
        "` instead", rfl⟩
  · constructor
    · apply Gui.draw_on_image_mode_err
      rw [Gui.new_with_subpass_ok_elim s' q' sp g2 h2]
      rfl
    · exact ⟨"Gui integration has been created with subpass, use `",
        "` instead", rfl⟩

/-- Witness for C2 at the concrete render-pass and subpass sessions. -/
theorem draw_mode_exclusivity_witness :
    (guiRP.draw_on_subpass_image (2, 2) =
        (.error drawOnSubpassWrongModeMsg, guiRP) ∧
      ∃ a b, drawOnSubpassWrongModeMsg = a ++ "draw_on_image" ++ b) ∧
    (guiSP.draw_on_image fut0 imgGood =
        (.error drawOnImageWrongModeMsg, guiSP) ∧
      ∃ a b, drawOnImageWrongModeMsg = a ++ "draw_on_subpass_image" ++ b) :=
  draw_mode_exclusivity surface0 surface0 queue0 queue0 false subpass0
    guiRP guiSP fut0 imgGood (2, 2) (by decide) (by decide)

/-- C3: when the surface's supported-format set does not contain
`B8G8R8A8_SRGB`, both constructors fail fatally with a message naming the
missing format, and the failure occurs before any renderer-backend state is
created: no renderer-construction call appears in either constructor's
external-call trace. -/
theorem construction_requires_surface_format
    (s : Surface) (q : Queue) (o : Bool) (sp : Subpass)
    (h : ∀ p ∈ s.supported_formats, p.1 ≠ Format.B8G8R8A8_SRGB) :
    Gui.new s q o = .error (swapchainFormatMsg Format.B8G8R8A8_SRGB) ∧
    Gui.new_with_subpass s q sp =
      .error (swapchainFormatMsg Format.B8G8R8A8_SRGB) ∧
    (∃ a b, swapchainFormatMsg Format.B8G8R8A8_SRGB =
      a ++ "B8G8R8A8_SRGB" ++ b) ∧
    ExtCall.rendererCreate ∉ Gui.newTrace s q o ∧
    ExtCall.rendererCreate ∉ Gui.newWithSubpassTrace s q sp := by
  have hfind : (s.supported_formats.find?
      (fun f => f.1 == Format.B8G8R8A8_SRGB)) = none := by
    rw [List.find?_eq_none]
    intro p hp
    simpa using h p hp
  refine ⟨?_, ?_, ⟨"Swapchain format does not support ", "", by rfl⟩, ?_, ?_⟩
  · simp [Gui.new, PhysicalDevice.surface_formats, hfind]
  · simp [Gui.new_with_subpass, PhysicalDevice.surface_formats, hfind]
  · simp [Gui.newTrace, PhysicalDevice.surface_formats, hfind]
  · simp [Gui.newWithSubpassTrace, PhysicalDevice.surface_formats, hfind]

/-- Witness for C3 at the concrete surface lacking the required format. -/
theorem construction_requires_surface_format_witness :
    Gui.new surfaceBad queue0 false =
      .error (swapchainFormatMsg Format.B8G8R8A8_SRGB) ∧
    Gui.new_with_subpass surfaceBad queue0 subpass0 =
      .error (swapchainFormatMsg Format.B8G8R8A8_SRGB) ∧
    (∃ a b, swapchainFormatMsg Format.B8G8R8A8_SRGB =
      a ++ "B8G8R8A8_SRGB" ++ b) ∧
    ExtCall.rendererCreate ∉ Gui.newTrace surfaceBad queue0 false ∧
    ExtCall.rendererCreate ∉ Gui.newWithSubpassTrace surfaceBad queue0 subpass0 :=
  construction_requires_surface_format surfaceBad queue0 false subpass0
    (by decide)

/-- C4 counterexample: a `draw_on_image` call whose target format is wrong
does not always fail with the format-mismatch error — on a session
constructed via the subpass path, it fails with the mode-misuse message
instead, because the mode check runs before the format check; the mode
message does not report the actual and required formats. -/
theorem draw_on_image_format_claim_cex :
    (guiSP.draw_on_image fut0 imgBad).1 = .error drawOnImageWrongModeMsg ∧
    drawOnImageWrongModeMsg ≠ wrongTargetFormatMsg imgBad.format := by
  exact ⟨by decide, by decide⟩

/-- C4 (amended): for every `draw_on_image` call on a render-pass-mode
session whose target image format is not `B8G8R8A8_SRGB`, the call fails
fatally with the format-mismatch message reporting the actual and the
required format, and the session is returned unchanged — the frame is not
ended and no draw work is delegated to the renderer. -/
theorem draw_on_image_format_mismatch_panics
    (g : Gui) (fut : GpuFuture) (img : ImageView)
    (hm : g.renderer.has_renderpass = true)
    (hf : img.format ≠ some Format.B8G8R8A8_SRGB) :
    g.draw_on_image fut img = (.error (wrongTargetFormatMsg img.format), g) ∧
    (∃ a b c, wrongTargetFormatMsg img.format =
      a ++ optionFormatDebug img.format ++ b ++
        optionFormatDebug (some Format.B8G8R8A8_SRGB) ++ c) := by
  refine ⟨Gui.draw_on_image_format_err g fut img hm hf, ?_⟩
  refine ⟨"Render target image color format is wrong ", ", should be ", "", ?_⟩
  rw [String.append_empty, wrongTargetFormatMsg, String.append_assoc,
    String.append_assoc]

/-- Witness for C4 (amended) at the concrete render-pass session and
wrong-format image. -/
theorem draw_on_image_format_mismatch_panics_witness :
    guiRP.draw_on_image fut0 imgBad =
      (.error (wrongTargetFormatMsg imgBad.format), guiRP) ∧
    (∃ a b c, wrongTargetFormatMsg imgBad.format =
      a ++ optionFormatDebug imgBad.format ++ b ++
        optionFormatDebug (some Format.B8G8R8A8_SRGB) ++ c) :=
  draw_on_image_format_mismatch_panics guiRP fut0 imgBad (by decide) (by decide)

/-- C5: `end_frame` calls the context frame-end operation, forwards its
platform output to the input bridge for application to the platform window,
and stores its shape list and texture delta into the pending buffers,
overwriting their previous contents; the renderer and surface are
untouched. -/
theorem end_frame_steps (g : Gui) :
    (g.end_frame).egui_ctx = (g.egui_ctx.end_frame).2 ∧
    (g.end_frame).egui_winit =
      g.egui_winit.handle_platform_output g.surface.window
        (g.egui_ctx.end_frame).2 (g.egui_ctx.end_frame).1.platform_output ∧
    (g.end_frame).shapes = (g.egui_ctx.end_frame).1.shapes ∧
    (g.end_frame).textures_delta = (g.egui_ctx.end_frame).1.textures_delta ∧
    (g.end_frame).renderer = g.renderer ∧
    (g.end_frame).surface = g.surface :=
  ⟨rfl, rfl, rfl, rfl, rfl, rfl⟩

/-- C6: `immediate_ui` is exactly `begin_frame` followed immediately by the
layout closure applied to the session; `begin_frame` itself leaves both
pending buffers untouched (so `immediate_ui` writes them only through the
closure) and leaves the frame open rather than ending it. -/
theorem immediate_ui_is_begin_frame_then_closure
    (g : Gui) (layout_function : Gui → Gui) :
    g.immediate_ui layout_function = layout_function g.begin_frame ∧
    (g.begin_frame).shapes = g.shapes ∧
    (g.begin_frame).textures_delta = g.textures_delta ∧
    (g.begin_frame).egui_ctx.frameOpen = true :=
  ⟨rfl, rfl, rfl, rfl⟩

/-- C7 counterexample: the value the constructors pass to the input bridge is
not the platform-reported maximum texture dimension. On the concrete device
with properties `props0` — maximum 2D texture dimension 16384, maximum image
array layer count 2048 — `Gui::new` succeeds and passes 2048, the array-layer
count, not the texture dimension. -/
theorem constructor_max_texture_side_claim_cex :
    Gui.new surface0 queue0 false = .ok guiRP ∧
    guiRP.egui_winit.max_texture_side = 2048 ∧
    maxTextureDimension queue0.device.physical_device.properties = 16384 ∧
    guiRP.egui_winit.max_texture_side ≠
      maxTextureDimension queue0.device.physical_device.properties := by
  exact ⟨by decide, by decide, by decide, by decide⟩

/-- C7 (amended): both constructors query the maximum-image-array-layers
property of the physical device (not a maximum-texture-dimension limit) and
pass that value as `max_texture_side` to the `egui_winit::State` input-bridge
construction. -/
theorem constructor_passes_max_image_array_layers
    (s s' : Surface) (q q' : Queue) (o : Bool) (sp : Subpass) (g1 g2 : Gui)
    (h1 : Gui.new s q o = .ok g1)
    (h2 : Gui.new_with_subpass s' q' sp = .ok g2) :
    g1.egui_winit = EguiWinitState.new
      q.device.physical_device.properties.max_image_array_layers s.window ∧
    g2.egui_winit = EguiWinitState.new
      q'.device.physical_device.properties.max_image_array_layers s'.window := by
  rw [Gui.new_ok_elim s q o g1 h1, Gui.new_with_subpass_ok_elim s' q' sp g2 h2]
  exact ⟨rfl, rfl⟩

/-- Witness for C7 (amended) at the concrete constructions. -/
theorem constructor_passes_max_image_array_layers_witness :
    guiRP.egui_winit = EguiWinitState.new
      queue0.device.physical_device.properties.max_image_array_layers
      surface0.window ∧
    guiSP.egui_winit = EguiWinitState.new
      queue0.device.physical_device.properties.max_image_array_layers
      surface0.window :=
  constructor_passes_max_image_array_layers surface0 surface0 queue0 queue0
    false subpass0 guiRP guiSP (by decide) (by decide)

/-- A concrete encoded-image asset whose decode fails. -/
def badEncodedBytes : EncodedImageBytes := ⟨[1, 2, 3], false⟩

/-- A concrete raw-pixel asset whose GPU upload fails. -/
def badRawBytes : RawImageBytes := ⟨[1, 2, 3, 4], false⟩

/-- C8 counterexample: image registration from bytes does not hand the caller
a result to unwrap — on a failing asset, `register_user_image` terminates the
process inside the call via the `.expect("Failed to create image")` panic
(its Rust return type is a bare `TextureId`, not a `Result`); likewise
`register_user_image_from_bytes`. -/
theorem register_user_image_claim_cex :
    (guiRP.register_user_image badEncodedBytes .R8G8B8A8_UNORM).1 =
      .error failedToCreateImageMsg ∧
    (guiRP.register_user_image_from_bytes badRawBytes (2, 2)
      .R8G8B8A8_UNORM).1 = .error failedToCreateImageMsg := by
  exact ⟨by decide, by decide⟩

/-- C8 (amended): when decoding or GPU upload fails, `register_user_image`
and `register_user_image_from_bytes` terminate the process with the
`Failed to create image` panic raised by the `.expect` inside the call,
leaving the session unchanged; no recoverable result is offered to the
caller. -/
theorem register_user_image_panics_on_failure
    (g : Gui) (enc : EncodedImageBytes) (raw : RawImageBytes)
    (dims : Nat × Nat) (fmt fmt' : Format)
    (h1 : enc.decodes_ok = false) (h2 : raw.upload_ok = false) :
    g.register_user_image enc fmt = (.error failedToCreateImageMsg, g) ∧
    g.register_user_image_from_bytes raw dims fmt' =
      (.error failedToCreateImageMsg, g) := by
  constructor
  · simp [Gui.register_user_image, immutable_texture_from_file, h1]
  · simp [Gui.register_user_image_from_bytes, immutable_texture_from_bytes, h2]

/-- Witness for C8 (amended) at the concrete failing assets. -/
theorem register_user_image_panics_on_failure_witness :
    guiRP.register_user_image badEncodedBytes .R8G8B8A8_UNORM =
      (.error failedToCreateImageMsg, guiRP) ∧
    guiRP.register_user_image_from_bytes badRawBytes (2, 2) .R8G8B8A8_UNORM =
      (.error failedToCreateImageMsg, guiRP) :=
  register_user_image_panics_on_failure guiRP badEncodedBytes badRawBytes
    (2, 2) .R8G8B8A8_UNORM .R8G8B8A8_UNORM (by decide) (by decide)

/-- C9: when a draw entry point fails one of its precondition checks (the
mode check of either entry point, or the target-format check of
`draw_on_image`), the fatal error is raised before `end_frame` or
`extract_draw_data_at_frame_end` runs: the session at the moment of the
panic — pending shape buffer, pending texture-delta buffer and the
open-frame status of the UI context included — is exactly the session
before the call. -/
theorem draw_checks_error_atomicity
    (g1 g2 : Gui) (fut : GpuFuture) (img : ImageView) (dims : Nat × Nat)
    (e1 e2 : String)
    (h1 : (g1.draw_on_image fut img).1 = .error e1)
    (h2 : (g2.draw_on_subpass_image dims).1 = .error e2) :
    (g1.draw_on_image fut img).2 = g1 ∧
    (g2.draw_on_subpass_image dims).2 = g2 := by
  constructor
  · by_cases hm : g1.renderer.has_renderpass = true
    · by_cases hf : img.format = some Format.B8G8R8A8_SRGB
      · rw [Gui.draw_on_image_ok_eq g1 fut img hm hf] at h1
        exact Except.noConfusion h1
      · rw [Gui.draw_on_image_format_err g1 fut img hm hf]
    · rw [Bool.not_eq_true] at hm
      rw [Gui.draw_on_image_mode_err g1 fut img hm]
  · by_cases hm : g2.renderer.has_renderpass = true
    · rw [Gui.draw_on_subpass_image_mode_err g2 dims hm]
    · rw [Bool.not_eq_true] at hm
      rw [Gui.draw_on_subpass_image_ok_eq g2 dims hm] at h2
      exact Except.noConfusion h2

/-- Witness for C9: a render-pass session failing the target-format check of
`draw_on_image`, and the same session failing the mode check of
`draw_on_subpass_image`. -/
theorem draw_checks_error_atomicity_witness :
    (guiRP.draw_on_image fut0 imgBad).2 = guiRP ∧
    (guiRP.draw_on_subpass_image (2, 2)).2 = guiRP :=
  draw_checks_error_atomicity guiRP guiRP fut0 imgBad (2, 2)
    (wrongTargetFormatMsg imgBad.format) drawOnSubpassWrongModeMsg
    (by decide) (by decide)

/-- C10: `update`, `begin_frame`, `register_user_image_view`,
`unregister_user_image` and `context` never modify the pending shape buffer
or the pending texture-delta buffer; `context` merely returns a clone of the
UI context without touching the session. -/
theorem non_frame_ops_preserve_pending_buffers
    (g : Gui) (ev : WindowEvent) (img : ImageView) (tid : TextureId) :
    ((g.update ev).2).shapes = g.shapes ∧
    ((g.update ev).2).textures_delta = g.textures_delta ∧
    (g.begin_frame).shapes = g.shapes ∧
    (g.begin_frame).textures_delta = g.textures_delta ∧
    ((g.register_user_image_view img).2).shapes = g.shapes ∧
    ((g.register_user_image_view img).2).textures_delta = g.textures_delta ∧
    (g.unregister_user_image tid).shapes = g.shapes ∧
    (g.unregister_user_image tid).textures_delta = g.textures_delta ∧
    g.context = g.egui_ctx :=
  ⟨rfl, rfl, rfl, rfl, rfl, rfl, rfl, rfl, rfl⟩

end EguiVulkano
